import Mathlib

/-!
Verification of the request-trust and resilience boundary of the qckstrt
gateway: HMAC request signer, CSRF configuration and middleware, account
lockout tracker, circuit breaker, and graceful-shutdown coordinator.

Components whose implementation files are present are embedded directly
from the source; components for which only tests and the specification
are available are modelled from the spec (marked in their doc comments).
-/

set_option maxRecDepth 10000

namespace Hmac

/-- 2^32, the modulus for 32-bit word arithmetic. -/
def M32 : Nat := 4294967296

/-- Rotate a 32-bit word right by `n` bits. -/
def rotr (n x : Nat) : Nat := ((x >>> n) ||| (x <<< (32 - n))) % M32

/-- Bitwise complement of a 32-bit word. -/
def compl32 (x : Nat) : Nat := x ^^^ 4294967295

/-- SHA-256 Ch function. -/
def ch (x y z : Nat) : Nat := (x &&& y) ^^^ (compl32 x &&& z)

/-- SHA-256 Maj function. -/
def maj (x y z : Nat) : Nat := (x &&& y) ^^^ (x &&& z) ^^^ (y &&& z)

/-- SHA-256 big sigma 0. -/
def bsig0 (x : Nat) : Nat := rotr 2 x ^^^ rotr 13 x ^^^ rotr 22 x

/-- SHA-256 big sigma 1. -/
def bsig1 (x : Nat) : Nat := rotr 6 x ^^^ rotr 11 x ^^^ rotr 25 x

/-- SHA-256 small sigma 0. -/
def ssig0 (x : Nat) : Nat := rotr 7 x ^^^ rotr 18 x ^^^ (x >>> 3)

/-- SHA-256 small sigma 1. -/
def ssig1 (x : Nat) : Nat := rotr 17 x ^^^ rotr 19 x ^^^ (x >>> 10)

/-- The 64 SHA-256 round constants (decimal values of the FIPS 180-4 table). -/
def K : List Nat :=
  [1116352408, 1899447441, 3049323471, 3921009573, 961987163,
   1508970993, 2453635748, 2870763221, 3624381080, 310598401,
   607225278, 1426881987, 1925078388, 2162078206, 2614888103,
   3248222580, 3835390401, 4022224774, 264347078, 604807628,
   770255983, 1249150122, 1555081692, 1996064986, 2554220882,
   2821834349, 2952996808, 3210313671, 3336571891, 3584528711,
   113926993, 338241895, 666307205, 773529912, 1294757372,
   1396182291, 1695183700, 1986661051, 2177026350, 2456956037,
   2730485921, 2820302411, 3259730800, 3345764771, 3516065817,
   3600352804, 4094571909, 275423344, 430227734, 506948616,
   659060556, 883997877, 958139571, 1322822218, 1537002063,
   1747873779, 1955562222, 2024104815, 2227730452, 2361852424,
   2428436474, 2756734187, 3204031479, 3329325298]

/-- Initial SHA-256 hash value (decimal). -/
def H0 : List Nat :=
  [1779033703, 3144134277, 1013904242, 2773480762,
   1359893119, 2600822924, 528734635, 1541459225]

/-- Big-endian 8-byte encoding of a natural number. -/
def be64 (n : Nat) : List Nat :=
  [(n >>> 56) % 256, (n >>> 48) % 256, (n >>> 40) % 256, (n >>> 32) % 256,
   (n >>> 24) % 256, (n >>> 16) % 256, (n >>> 8) % 256, n % 256]

/-- Big-endian 4-byte encoding of a 32-bit word. -/
def be32 (n : Nat) : List Nat :=
  [(n >>> 24) % 256, (n >>> 16) % 256, (n >>> 8) % 256, n % 256]

/-- SHA-256 message padding: append 0x80, zeros, then the 64-bit bit length. -/
def pad (msg : List Nat) : List Nat :=
  let l := msg.length
  msg ++ [0x80] ++ List.replicate ((119 - l % 64) % 64) 0 ++ be64 (8 * l)

/-- Group a byte list into big-endian 32-bit words. -/
def toWords : List Nat → List Nat
  | a :: b :: c :: d :: rest =>
      (a * 16777216 + b * 65536 + c * 256 + d) :: toWords rest
  | _ => []

/-- Split a word list into blocks of 16 words, with structural fuel. -/
def chunk16F : Nat → List Nat → List (List Nat)
  | 0, _ => []
  | _, [] => []
  | n + 1, ws => ws.take 16 :: chunk16F n (ws.drop 16)

/-- Split a word list into blocks of 16 words. -/
def chunk16 (ws : List Nat) : List (List Nat) := chunk16F ws.length ws

/-- Extend a 16-word block with `n` further message-schedule words. -/
def extendSchedule : Nat → List Nat → List Nat
  | 0, w => w
  | n + 1, w =>
      let t := w.length
      extendSchedule n (w ++
        [(ssig1 (w.getD (t - 2) 0) + w.getD (t - 7) 0 +
          ssig0 (w.getD (t - 15) 0) + w.getD (t - 16) 0) % M32])

/-- The running 8-word SHA-256 compression state. -/
structure Sha256St where
  a : Nat
  b : Nat
  c : Nat
  d : Nat
  e : Nat
  f : Nat
  g : Nat
  h : Nat
deriving DecidableEq

/-- One SHA-256 compression round, fed the round constant and schedule word. -/
def round (st : Sha256St) (kw : Nat × Nat) : Sha256St :=
  let t1 := (st.h + bsig1 st.e + ch st.e st.f st.g + kw.1 + kw.2) % M32
  let t2 := (bsig0 st.a + maj st.a st.b st.c) % M32
  ⟨(t1 + t2) % M32, st.a, st.b, st.c, (st.d + t1) % M32, st.e, st.f, st.g⟩

/-- Compress one 16-word block into the running hash (8 words). -/
def processBlock (hs : List Nat) (block : List Nat) : List Nat :=
  let w := extendSchedule 48 block
  let st0 : Sha256St :=
    ⟨hs.getD 0 0, hs.getD 1 0, hs.getD 2 0, hs.getD 3 0,
     hs.getD 4 0, hs.getD 5 0, hs.getD 6 0, hs.getD 7 0⟩
  let f := (K.zip w).foldl round st0
  [(hs.getD 0 0 + f.a) % M32, (hs.getD 1 0 + f.b) % M32,
   (hs.getD 2 0 + f.c) % M32, (hs.getD 3 0 + f.d) % M32,
   (hs.getD 4 0 + f.e) % M32, (hs.getD 5 0 + f.f) % M32,
   (hs.getD 6 0 + f.g) % M32, (hs.getD 7 0 + f.h) % M32]

/-- SHA-256 of a byte list, as a 32-byte list. -/
def sha256 (msg : List Nat) : List Nat :=
  ((chunk16 (toWords (pad msg))).foldl processBlock H0).flatMap be32

/-- HMAC-SHA256 (RFC 2104) of a message under a key, as a 32-byte digest. -/
def hmacSha256 (key msg : List Nat) : List Nat :=
  let k0 := if 64 < key.length then sha256 key else key
  let kp := k0 ++ List.replicate (64 - k0.length) 0
  let ipadded := kp.map (fun b => b ^^^ 0x36)
  let opadded := kp.map (fun b => b ^^^ 0x5c)
  sha256 (opadded ++ sha256 (ipadded ++ msg))

/-- The base64 alphabet. -/
def b64Char (n : Nat) : Char :=
  "ABCDEFGHIJKLMNOPQRSTUVWXYZabcdefghijklmnopqrstuvwxyz0123456789+/".toList.getD n 'A'

/-- Standard base64 encoding with padding. -/
def base64Encode : List Nat → String
  | a :: b :: c :: rest =>
      String.mk [b64Char (a >>> 2), b64Char ((a % 4) <<< 4 ||| (b >>> 4)),
                 b64Char ((b % 16) <<< 2 ||| (c >>> 6)), b64Char (c % 64)] ++
      base64Encode rest
  | [a, b] =>
      String.mk [b64Char (a >>> 2), b64Char ((a % 4) <<< 4 ||| (b >>> 4)),
                 b64Char ((b % 16) <<< 2), '=']
  | [a] =>
      String.mk [b64Char (a >>> 2), b64Char ((a % 4) <<< 4), '=', '=']
  | [] => ""

/-- UTF-8 encoding of one character, as bytes. -/
def utf8Char (c : Char) : List Nat :=
  let n := c.toNat
  if n < 128 then [n]
  else if n < 2048 then [192 ||| (n >>> 6), 128 ||| (n % 64)]
  else if n < 65536 then
    [224 ||| (n >>> 12), 128 ||| ((n >>> 6) % 64), 128 ||| (n % 64)]
  else
    [240 ||| (n >>> 18), 128 ||| ((n >>> 12) % 64),
     128 ||| ((n >>> 6) % 64), 128 ||| (n % 64)]

/-- UTF-8 encoding of a string, as bytes. -/
def utf8 (s : String) : List Nat := s.toList.flatMap utf8Char

/-- Hex digit characters, used only to state test-vector checks. -/
def hexChar (n : Nat) : Char := "0123456789abcdef".toList.getD n '0'

/-- Lowercase hex encoding of a byte list. -/
def hexEncode (bs : List Nat) : String :=
  String.mk (bs.flatMap (fun b => [hexChar (b >>> 4), hexChar (b % 16)]))

end Hmac

namespace HmacSigner

/-- Lowercasing of a string, modelled at character level (ASCII, as applied to
HTTP method names) so that it evaluates by kernel reduction. -/
def toLowerAscii (s : String) : String := String.mk (s.toList.map Char.toLower)

/-- JSON string escaping of one character, as JSON.stringify performs it. -/
def jsonEscapeChar (c : Char) : String :=
  if c = '"' then "\\\""
  else if c = '\\' then "\\\\"
  else if c = '\x08' then "\\b"
  else if c = '\x09' then "\\t"
  else if c = '\x0a' then "\\n"
  else if c = '\x0c' then "\\f"
  else if c = '\x0d' then "\\r"
  else if c.toNat < 32 then
    "\\u00" ++ String.mk [Hmac.hexChar (c.toNat >>> 4), Hmac.hexChar (c.toNat % 16)]
  else String.singleton c

/-- JSON string escaping of a whole string. -/
def jsonEscape (s : String) : String :=
  String.mk (s.toList.flatMap (fun c => (jsonEscapeChar c).toList))

/-- A JSON string literal: quoted, escaped contents. -/
def jsonStr (s : String) : String := "\"" ++ jsonEscape s ++ "\""

/-- JSON.stringify of the credentials object built in `HmacSignerService.sign`
(keys serialized in insertion order). -/
def stringifyCredentials (username algorithm headers sigVal : String) : String :=
  "\x7b\"username\":" ++ jsonStr username ++ ",\"algorithm\":" ++ jsonStr algorithm ++
  ",\"headers\":" ++ jsonStr headers ++ ",\"signature\":" ++ jsonStr sigVal ++ "\x7d"

/-- The configured state of `HmacSignerService`: the shared secret and client id
read in the constructor. -/
structure SignerState where
  secret : String
  clientId : String

/-- JS `x || dflt` on a possibly-missing string config value (empty string is falsy). -/
def jsOrDefault (v : Option String) (dflt : String) : String :=
  match v with
  | none => dflt
  | some s => if s = "" then dflt else s

/-- The constructor of `HmacSignerService`: secret from GATEWAY_HMAC_SECRET or
empty; clientId from GATEWAY_CLIENT_ID or "api-gateway". -/
def mkSigner (secretEnv clientIdEnv : Option String) : SignerState :=
  ⟨jsOrDefault secretEnv "", jsOrDefault clientIdEnv "api-gateway"⟩

/-- `HmacSignerService.isEnabled`: truthiness of the secret. -/
def isEnabled (st : SignerState) : Bool := st.secret ≠ ""

/-- `HmacSignerService.sign`: empty when no secret is configured; otherwise the
`HMAC `-prefixed JSON credentials with a base64 HMAC-SHA256 signature over the
canonical string `"<lowercased method> <path>\ncontent-type: <contentType>"`. -/
def sign (st : SignerState) (method path contentType : String) : String :=
  if st.secret = "" then ""
  else
    let headers := "@request-target,content-type"
    let signatureString :=
      HmacSigner.toLowerAscii method ++ " " ++ path ++ "\ncontent-type: " ++ contentType
    let sigVal :=
      Hmac.base64Encode (Hmac.hmacSha256 (Hmac.utf8 st.secret) (Hmac.utf8 signatureString))
    "HMAC " ++ stringifyCredentials st.clientId "hmac-sha256" headers sigVal

/-- `sign` with the TypeScript default argument contentType = "application/json". -/
def signDefault (st : SignerState) (method path : String) : String :=
  sign st method path "application/json"

end HmacSigner

namespace CsrfConfig

/-- The `csrf` configuration record produced by `registerAs('csrf', ...)`,
embedded from the source config file; each field is computed from the
corresponding CSRF_* environment variable (modelled as `Option String`). -/
structure Config where
  enabled : Bool
  cookieName : String
  headerName : String
  cookieDomain : Option String

/-- `enabled: process.env.CSRF_ENABLED !== 'false'`. -/
def enabledOf (csrfEnabledEnv : Option String) : Bool :=
  csrfEnabledEnv ≠ some "false"

/-- JS `process.env.X || dflt` (undefined and empty string both fall back). -/
def envOrDefault (v : Option String) (dflt : String) : String :=
  match v with
  | none => dflt
  | some s => if s = "" then dflt else s

/-- The csrf config factory from the source: enabled flag, cookie name
(default "csrf-token"), header name (default "x-csrf-token"), cookie domain
(default undefined). -/
def mkConfig (enabledEnv cookieNameEnv headerNameEnv domainEnv : Option String) : Config :=
  { enabled := enabledOf enabledEnv
    cookieName := envOrDefault cookieNameEnv "csrf-token"
    headerName := envOrDefault headerNameEnv "x-csrf-token"
    cookieDomain :=
      match domainEnv with
      | none => none
      | some s => if s = "" then none else some s }

end CsrfConfig

namespace CircuitBreaker

/-- Circuit breaker states, as in the resilience types module
("closed", "open", "half_open"). -/
inductive CircuitState where
  | closed
  | opened
  | halfOpen
deriving DecidableEq

/-- Per-dependency circuit breaker configuration. -/
structure Config where
  failureThreshold : Nat
  halfOpenAfterMs : Nat
  serviceName : String
deriving DecidableEq

/-- Modelled from the spec: the breaker bookkeeping of `CircuitBreakerManager`
(state, failureCount, last failure/success timestamps, last downstream error);
the implementation module `providers/resilience/circuit-breaker` is not among
the provided sources — only its test file is. -/
structure BreakerState where
  state : CircuitState
  failureCount : Nat
  lastFailureAt : Option Nat
  lastSuccessAt : Option Nat
  lastError : Option String
deriving DecidableEq

/-- The freshly constructed breaker: CLOSED with zeroed counters. -/
def initial : BreakerState := ⟨.closed, 0, none, none, none⟩

/-- Listener event tags: "success", "failure", "break". -/
inductive CBEvent where
  | success
  | failure
  | brk
deriving DecidableEq

/-- Errors surfaced by `execute`: the fast-fail circuit-open error carrying
the service name (and the triggering downstream error when available), or the
wrapped function's own error propagated verbatim. -/
inductive ExecError where
  | circuitOpen (serviceName : String) (originalError : Option String)
  | downstream (e : String)
deriving DecidableEq

/-- Modelled from the spec: one `execute` call of `CircuitBreakerManager`.
The wrapped function's behavior is supplied as its outcome `fn` and the
current time as `now`. Returns the call result, the new breaker state,
whether the wrapped function was invoked, and the event to notify. When the
circuit is OPEN and the cooldown has not elapsed, fails fast without invoking
`fn`. An OPEN circuit whose cooldown elapsed probes in HALF_OPEN; a success
resets the failure count and closes the circuit; a failure increments the
count, re-opens from HALF_OPEN, and opens on reaching the threshold. -/
def executeStep {α : Type} (cfg : Config) (now : Nat) (st : BreakerState)
    (fn : Except String α) :
    Except ExecError α × BreakerState × Bool × Option CBEvent :=
  let cooldownActive :=
    match st.lastFailureAt with
    | some tf => now < tf + cfg.halfOpenAfterMs
    | none => false
  if st.state = .opened ∧ cooldownActive = true then
    (Except.error (.circuitOpen cfg.serviceName st.lastError), st, false, none)
  else
    let effState := if st.state = .opened then CircuitState.halfOpen else st.state
    match fn with
    | .ok a =>
        (.ok a,
         { state := .closed, failureCount := 0, lastFailureAt := st.lastFailureAt,
           lastSuccessAt := some now, lastError := st.lastError },
         true, some .success)
    | .error e =>
        let fc := st.failureCount + 1
        let toOpen := cfg.failureThreshold ≤ fc ∨ effState = .halfOpen
        (.error (.downstream e),
         { state := if toOpen then .opened else effState,
           failureCount := fc, lastFailureAt := some now,
           lastSuccessAt := st.lastSuccessAt, lastError := some e },
         true,
         some (if cfg.failureThreshold ≤ fc then CBEvent.brk else CBEvent.failure))

/-- A registered listener: receives the event tag and may itself throw. -/
def Listener : Type := CBEvent → Except String Unit

/-- Modelled from the spec: listener fan-out with per-listener error boundary —
each listener runs inside its own catch; a thrown listener error is logged
(collected here) and never rethrown. -/
def notifyListeners (ls : List Listener) (e : CBEvent) : List String :=
  ls.filterMap (fun l =>
    match l e with
    | .ok _ => none
    | .error msg => some msg)

/-- `execute` including listener notification: runs the bookkeeping step, then
notifies every registered listener of the emitted event inside its error
boundary. Returns the call result, new state, invocation flag, and the log of
caught listener errors. -/
def executeWithListeners {α : Type} (cfg : Config) (now : Nat) (st : BreakerState)
    (fn : Except String α) (ls : List Listener) :
    Except ExecError α × BreakerState × Bool × List String :=
  match executeStep cfg now st fn with
  | (r, st', inv, ev) =>
      let log := match ev with
        | none => []
        | some e => notifyListeners ls e
      (r, st', inv, log)

/-- `k` consecutive `execute` calls whose wrapped function fails with `e`,
all at time `t`. -/
def failN (cfg : Config) (t : Nat) (e : String) : Nat → BreakerState → BreakerState
  | 0, st => st
  | k + 1, st =>
      (executeStep cfg t (failN cfg t e k st) (Except.error e : Except String Unit)).2.1

end CircuitBreaker

namespace Lockout

/-- Modelled from the spec: the per-identifier lockout record of
`AccountLockoutService` (implementation file not among the provided sources;
fields as exercised by its test file: `failedAttempts`, `lastAttempt`,
optional `lockedUntil`). -/
structure LockoutRecord where
  failedAttempts : Nat
  lastAttempt : Nat
  lockedUntil : Option Nat
deriving DecidableEq

/-- Lockout configuration: maxAttempts (default 5) and lockoutDuration in ms
(default 900000). -/
structure Config where
  maxAttempts : Nat
  lockoutDuration : Nat
deriving DecidableEq

/-- The in-memory record map, keyed by normalized identifier. -/
def Store : Type := String → Option LockoutRecord

/-- The empty record map. -/
def emptyStore : Store := fun _ => none

/-- Identifier normalization: lowercase-trim, modelled at character level
(ASCII lowercasing, whitespace trimming) so that it evaluates by kernel
reduction. -/
def normalize (s : String) : String :=
  String.mk ((((s.toList.map Char.toLower).dropWhile Char.isWhitespace).reverse.dropWhile
    Char.isWhitespace).reverse)

/-- Modelled from the spec: `recordFailedAttempt` — increments the failure
counter for the normalized identifier; when the post-increment count reaches
`maxAttempts` it sets `lockedUntil = now + lockoutDuration` and returns true,
otherwise returns false. Per the spec's design note, an attempt during an
active lock does not extend the lock window. -/
def recordFailedAttempt (cfg : Config) (now : Nat) (store : Store) (id : String) :
    Bool × Store :=
  let key := normalize id
  let prev := (store key).getD ⟨0, now, none⟩
  let attempts := prev.failedAttempts + 1
  let lockedUntil :=
    match prev.lockedUntil with
    | some u =>
        if now < u then some u
        else if cfg.maxAttempts ≤ attempts then some (now + cfg.lockoutDuration)
        else none
    | none =>
        if cfg.maxAttempts ≤ attempts then some (now + cfg.lockoutDuration)
        else none
  (decide (cfg.maxAttempts ≤ attempts),
   fun k => if k = key then some ⟨attempts, now, lockedUntil⟩ else store k)

/-- Modelled from the spec: `isLocked` — true iff a record exists and
`now < lockedUntil`. -/
def isLocked (now : Nat) (store : Store) (id : String) : Bool :=
  match store (normalize id) with
  | none => false
  | some r =>
      match r.lockedUntil with
      | none => false
      | some u => now < u

/-- Modelled from the spec: `getRemainingLockoutTime` — `max 0 (lockedUntil - now)`,
0 if unlocked or unknown (Nat subtraction truncates at 0). -/
def getRemainingLockoutTime (now : Nat) (store : Store) (id : String) : Nat :=
  match store (normalize id) with
  | none => 0
  | some r =>
      match r.lockedUntil with
      | none => 0
      | some u => u - now

/-- Modelled from the spec: `clearLockout` — deletes the record entirely. -/
def clearLockout (store : Store) (id : String) : Store :=
  fun k => if k = normalize id then none else store k

/-- Modelled from the spec: `getFailedAttempts` — current counter, 0 if unknown. -/
def getFailedAttempts (store : Store) (id : String) : Nat :=
  match store (normalize id) with
  | none => 0
  | some r => r.failedAttempts

/-- The results and final store of `k` successive `recordFailedAttempt` calls
for the same identifier at time `t`, starting from the empty store. -/
def recordN (cfg : Config) (t : Nat) (id : String) : Nat → Store × List Bool
  | 0 => (emptyStore, [])
  | k + 1 =>
      let p := recordN cfg t id k
      let q := recordFailedAttempt cfg t p.1 id
      (q.2, p.2 ++ [q.1])

end Lockout

namespace Csrf

/-- An incoming header value: Express delivers a single string or a list. -/
inductive HeaderValue where
  | single (s : String)
  | multi (ss : List String)
deriving DecidableEq

/-- The parts of an Express request that the middleware reads: the method,
the structured cookie jar (absent when no cookie parser ran), the raw Cookie
header, and the other request headers (lowercased names). -/
structure Request where
  method : String
  cookieJar : Option (List (String × String))
  rawCookieHeader : Option String
  headers : List (String × HeaderValue)
deriving DecidableEq

/-- Numeric value of a hex digit character, if it is one. -/
def hexVal (c : Char) : Option Nat :=
  if '0' ≤ c ∧ c ≤ '9' then some (c.toNat - 48)
  else if 'a' ≤ c ∧ c ≤ 'f' then some (c.toNat - 87)
  else if 'A' ≤ c ∧ c ≤ 'F' then some (c.toNat - 55)
  else none

/-- Percent-decoding of a character list (URL decoding of cookie values). -/
def percentDecode : List Char → List Char
  | '%' :: a :: b :: rest =>
      match hexVal a, hexVal b with
      | some x, some y => Char.ofNat (16 * x + y) :: percentDecode rest
      | _, _ => '%' :: percentDecode (a :: b :: rest)
  | c :: rest => c :: percentDecode rest
  | [] => []

/-- URL-decoding of a cookie value. -/
def urlDecode (s : String) : String := String.mk (percentDecode s.toList)

/-- First association for a key in a cookie list. -/
def assoc (key : String) : List (String × String) → Option String
  | [] => none
  | (k, v) :: rest => if k = key then some v else assoc key rest

/-- Modelled from the spec: the manual fallback parser for the raw Cookie
header — split on "; " and "=", URL-decode values. -/
def parseCookieHeader (raw : String) : List (String × String) :=
  (raw.splitOn "; ").filterMap (fun pair =>
    match pair.splitOn "=" with
    | [] => none
    | [_] => none
    | name :: rest => some (name, urlDecode (String.intercalate "=" rest)))

/-- Modelled from the spec: read the CSRF cookie token — from the structured
cookie jar when available, else by manually parsing the raw Cookie header. -/
def getCookieToken (cookieName : String) (req : Request) : Option String :=
  match req.cookieJar with
  | some jar => assoc cookieName jar
  | none =>
      match req.rawCookieHeader with
      | some raw => assoc cookieName (parseCookieHeader raw)
      | none => none

/-- First association for a header name. -/
def assocHeader (key : String) : List (String × HeaderValue) → Option HeaderValue
  | [] => none
  | (k, v) :: rest => if k = key then some v else assocHeader key rest

/-- Modelled from the spec: read the CSRF header token — the first value when
the header arrives as a multi-value list. -/
def getHeaderToken (headerName : String) (req : Request) : Option String :=
  match assocHeader headerName req.headers with
  | none => none
  | some (.single s) => some s
  | some (.multi []) => none
  | some (.multi (s :: _)) => some s

/-- Cookie attributes the middleware sets on the CSRF cookie. -/
structure CookieOptions where
  httpOnly : Bool
  secure : Bool
  sameSite : String
  maxAge : Nat
  path : String
  domain : Option String
deriving DecidableEq

/-- The middleware's effective configuration (csrf.* plus cookie.* values). -/
structure MwConfig where
  enabled : Bool
  cookieName : String
  headerName : String
  tokenMaxAge : Nat
  cookieDomain : Option String
  secure : Bool
  sameSite : String
deriving DecidableEq

/-- The cookie attribute set: httpOnly=false, secure and sameSite from config,
maxAge from config, path "/", optional domain. -/
def mkCookieOptions (cfg : MwConfig) : CookieOptions :=
  ⟨false, cfg.secure, cfg.sameSite, cfg.tokenMaxAge, "/", cfg.cookieDomain⟩

/-- What one middleware invocation did: passed the request on (with the cookie
it set, if any) or rejected it with a ForbiddenException message. -/
inductive Outcome where
  | proceed (setCookie : Option (String × String × CookieOptions))
  | forbidden (message : String)
deriving DecidableEq

/-- Methods that are never rejected. -/
def SAFE_METHODS : List String := ["GET", "HEAD", "OPTIONS"]

/-- Whether a method is safe. -/
def isSafeMethod (m : String) : Bool := SAFE_METHODS.contains m

/-- Modelled from the spec: `CsrfMiddleware.use` (implementation file not among
the provided sources — only its test file is). Disabled: pass through without
touching cookies. Safe method: re-set the existing cookie token, or set the
freshly generated random token `freshToken` when none exists, and proceed.
Unsafe method: require both cookie and header tokens ("CSRF token required"
when either is missing), reject unequal tokens ("Invalid CSRF token"), and
proceed on exact equality (refreshing the cookie). -/
def use (cfg : MwConfig) (freshToken : String) (req : Request) : Outcome :=
  if !cfg.enabled then .proceed none
  else if isSafeMethod req.method then
    let value := (getCookieToken cfg.cookieName req).getD freshToken
    .proceed (some (cfg.cookieName, value, mkCookieOptions cfg))
  else
    match getCookieToken cfg.cookieName req, getHeaderToken cfg.headerName req with
    | some c, some h =>
        if c = h then .proceed (some (cfg.cookieName, c, mkCookieOptions cfg))
        else .forbidden "Invalid CSRF token"
    | _, _ => .forbidden "CSRF token required"

/-- Whether an outcome passed the request to the next handler. -/
def proceeds : Outcome → Bool
  | .proceed _ => true
  | .forbidden _ => false

end Csrf

namespace Shutdown

/-- A tracked connection: its socket id and when (relative to drain start) it
closes on its own — `none` for a connection that never closes. -/
structure Conn where
  sockId : Nat
  closesAt : Option Nat
deriving DecidableEq

/-- Modelled from the spec: the `GracefulShutdownService` state — the
shutdown-in-progress flag, how many times the listening socket's close has
been invoked, the live connection set, and the force-destroyed socket ids
(implementation file not among the provided sources — only its test file is). -/
structure SState where
  shuttingDown : Bool
  serverCloseCalls : Nat
  conns : List Conn
  destroyedIds : List Nat
deriving DecidableEq

/-- The running service with a given set of accepted connections. -/
def initialState (conns : List Conn) : SState := ⟨false, 0, conns, []⟩

/-- Whether a connection is still open when the drain timeout fires. -/
def openAtTimeout (timeout : Nat) (c : Conn) : Bool :=
  match c.closesAt with
  | none => true
  | some t => timeout ≤ t

/-- The time at which the drain wait resolves: when the connection set
empties, or at the timeout, whichever first (0 for no connections). -/
def resolveTime (timeout : Nat) (conns : List Conn) : Nat :=
  min timeout (conns.foldr (fun c acc => max (c.closesAt.getD timeout) acc) 0)

/-- Modelled from the spec: `onApplicationShutdown`. A second signal while
already shutting down is a no-op. Otherwise: mark shutdown, close the
listening socket (exactly once), wait for the connection set to empty or for
the timeout, and force-destroy every socket still open at that point. Returns
the new state and the relative time at which the returned promise resolves. -/
def onShutdown (timeout : Nat) (st : SState) : SState × Nat :=
  if st.shuttingDown then (st, 0)
  else
    let stillOpen := st.conns.filter (openAtTimeout timeout)
    ({ shuttingDown := true
       serverCloseCalls := st.serverCloseCalls + 1
       conns := []
       destroyedIds := stillOpen.map Conn.sockId },
     resolveTime timeout st.conns)

/-- A whole sequence of shutdown signals, applied in order. -/
def signalSeq (timeouts : List Nat) (st : SState) : SState :=
  timeouts.foldl (fun s t => (onShutdown t s).1) st

end Shutdown

namespace Shutdown

/-- Helper: a shutdown signal on an already-shutting-down state is a no-op. -/
theorem onShutdown_of_shuttingDown (timeout : Nat) (st : SState)
    (h : st.shuttingDown = true) : onShutdown timeout st = (st, 0) := by
  simp [onShutdown, h]

/-- Helper: once shutting down, any further sequence of signals leaves the
state unchanged. -/
theorem signalSeq_of_shuttingDown : ∀ (ts : List Nat) (st : SState),
    st.shuttingDown = true → signalSeq ts st = st
  | [], _, _ => rfl
  | t :: ts, st, h => by
      have h1 : (onShutdown t st).1 = st := by rw [onShutdown_of_shuttingDown t st h]
      calc signalSeq (t :: ts) st = signalSeq ts (onShutdown t st).1 := rfl
        _ = signalSeq ts st := by rw [h1]
        _ = st := signalSeq_of_shuttingDown ts st h

/-- Helper: the drain wait lasts the full timeout when some live connection
never closes. -/
theorem resolveTime_of_member_none (timeout : Nat) (conns : List Conn)
    (c : Conn) (hc : c ∈ conns) (hnone : c.closesAt = none) :
    resolveTime timeout conns = timeout := by
  have hle : timeout ≤ conns.foldr (fun c acc => max (c.closesAt.getD timeout) acc) 0 := by
    induction conns with
    | nil => cases hc
    | cons d ds ih =>
        rcases List.mem_cons.mp hc with rfl | hmem
        · simp [hnone]
        · exact le_trans (ih hmem) (le_max_right _ _)
  simp [resolveTime, Nat.min_eq_left hle]

end Shutdown

/-- C5: during shutdown from the running state, with zero open connections
`onShutdown` resolves immediately (relative time 0) right after closing the
listening socket; with at least one connection that never closes it resolves
only when the configured drain timeout elapses, and every socket still open
at that point is forcibly destroyed. -/
theorem c5_shutdown_drain (timeout : Nat) (st : Shutdown.SState)
    (hrun : st.shuttingDown = false) :
    (st.conns = [] →
       Shutdown.onShutdown timeout st =
         ({ shuttingDown := true, serverCloseCalls := st.serverCloseCalls + 1,
            conns := [], destroyedIds := [] }, 0)) ∧
    ((∃ c ∈ st.conns, c.closesAt = none) →
       (Shutdown.onShutdown timeout st).2 = timeout) ∧
    (∀ c ∈ st.conns, Shutdown.openAtTimeout timeout c = true →
       c.sockId ∈ (Shutdown.onShutdown timeout st).1.destroyedIds) := by
  refine ⟨?_, ?_, ?_⟩
  · intro hnil
    simp [Shutdown.onShutdown, hrun, hnil, Shutdown.resolveTime]
  · rintro ⟨c, hc, hnone⟩
    simp [Shutdown.onShutdown, hrun,
      Shutdown.resolveTime_of_member_none timeout st.conns c hc hnone]
  · intro c hc hopen
    simp only [Shutdown.onShutdown, hrun, Bool.false_eq_true, if_false]
    exact List.mem_map_of_mem _ (List.mem_filter.mpr ⟨hc, hopen⟩)

/-- C5 witness: a concrete run with no connections resolves at 0 after one
listening-socket close; a run with one never-closing connection (timeout 150)
resolves at 150 and destroys that socket. -/
theorem c5_shutdown_drain_witness :
    ((⟨false, 0, [], []⟩ : Shutdown.SState).shuttingDown = false) ∧
    Shutdown.onShutdown 10000 ⟨false, 0, [], []⟩ =
      ({ shuttingDown := true, serverCloseCalls := 1, conns := [], destroyedIds := [] }, 0) ∧
    (Shutdown.onShutdown 150 ⟨false, 0, [⟨7, none⟩], []⟩).2 = 150 ∧
    (7 : Nat) ∈ (Shutdown.onShutdown 150 ⟨false, 0, [⟨7, none⟩], []⟩).1.destroyedIds :=
  ⟨rfl,
   (c5_shutdown_drain 10000 ⟨false, 0, [], []⟩ rfl).1 rfl,
   (c5_shutdown_drain 150 ⟨false, 0, [⟨7, none⟩], []⟩ rfl).2.1 ⟨⟨7, none⟩, by decide, rfl⟩,
   (c5_shutdown_drain 150 ⟨false, 0, [⟨7, none⟩], []⟩ rfl).2.2 ⟨7, none⟩ (by decide) rfl⟩

/-- C6: the close sequence runs at most once: a further shutdown signal while
already draining or stopped is a no-op, and over every sequence of shutdown
signals from the running state the listening socket's close is invoked at
most once. -/
theorem c6_shutdown_idempotent :
    (∀ (timeout : Nat) (st : Shutdown.SState), st.shuttingDown = true →
        Shutdown.onShutdown timeout st = (st, 0)) ∧
    (∀ (timeouts : List Nat) (conns : List Shutdown.Conn),
        (Shutdown.signalSeq timeouts (Shutdown.initialState conns)).serverCloseCalls ≤ 1) := by
  refine ⟨Shutdown.onShutdown_of_shuttingDown, ?_⟩
  intro ts conns
  cases ts with
  | nil => simp [Shutdown.signalSeq, Shutdown.initialState]
  | cons t ts =>
      have hsd : ((Shutdown.onShutdown t (Shutdown.initialState conns)).1).shuttingDown = true := by
        simp [Shutdown.onShutdown, Shutdown.initialState]
      calc (Shutdown.signalSeq (t :: ts) (Shutdown.initialState conns)).serverCloseCalls
          = (Shutdown.signalSeq ts
              (Shutdown.onShutdown t (Shutdown.initialState conns)).1).serverCloseCalls := rfl
        _ = ((Shutdown.onShutdown t (Shutdown.initialState conns)).1).serverCloseCalls := by
              rw [Shutdown.signalSeq_of_shuttingDown ts _ hsd]
        _ ≤ 1 := by simp [Shutdown.onShutdown, Shutdown.initialState]

/-- C6 witness: a second SIGTERM on an already-shut-down state is a no-op, and
two shutdown signals from the running state close the listening socket once. -/
theorem c6_shutdown_idempotent_witness :
    Shutdown.onShutdown 5000 ⟨true, 1, [], []⟩ = (⟨true, 1, [], []⟩, 0) ∧
    (Shutdown.signalSeq [5000, 5000] (Shutdown.initialState [⟨1, none⟩])).serverCloseCalls ≤ 1 :=
  ⟨c6_shutdown_idempotent.1 5000 ⟨true, 1, [], []⟩ rfl,
   c6_shutdown_idempotent.2 [5000, 5000] [⟨1, none⟩]⟩

/-- Helper: below the lockout threshold, `k` failed attempts from the empty
store leave a record of `k` attempts with no lock, and every call so far
returned false. -/
theorem recordN_below (cfg : Lockout.Config) (t : Nat) (id : String) :
    ∀ k, k < cfg.maxAttempts →
      ((Lockout.recordN cfg t id k).1 (Lockout.normalize id) =
        if k = 0 then none else some ⟨k, t, none⟩) ∧
      (Lockout.recordN cfg t id k).2 = List.replicate k false := by
  intro k
  induction k with
  | zero =>
      intro _
      exact ⟨rfl, rfl⟩
  | succ k ih =>
      intro h
      obtain ⟨ih1, ih2⟩ := ih (Nat.lt_of_succ_lt h)
      have hnle : ¬ cfg.maxAttempts ≤ k + 1 := Nat.not_le.mpr h
      by_cases hk : k = 0
      · subst hk
        refine ⟨?_, ?_⟩
        · simp [Lockout.recordN, Lockout.recordFailedAttempt, Lockout.emptyStore, ih1, hnle]
        · simp [Lockout.recordN, Lockout.recordFailedAttempt, Lockout.emptyStore, ih1, ih2, hnle]
      · refine ⟨?_, ?_⟩
        · simp [Lockout.recordN, Lockout.recordFailedAttempt, ih1, hk, hnle]
        · simp [Lockout.recordN, Lockout.recordFailedAttempt, ih1, ih2, hk, hnle,
            List.replicate_succ']

/-- C2: for an identifier with no prior record, successive recordFailedAttempt
calls return false while the post-increment count is below maxAttempts and
return true exactly when it reaches maxAttempts, at which point
lockedUntil = now + lockoutDuration, isLocked becomes true and the remaining
lockout time is the full duration; in particular maxAttempts calls return
false ... false, true. -/
theorem c2_lockout_sequence (cfg : Lockout.Config) (t : Nat) (id : String)
    (hmax : 0 < cfg.maxAttempts) (hdur : 0 < cfg.lockoutDuration) :
    (Lockout.recordN cfg t id cfg.maxAttempts).2 =
      List.replicate (cfg.maxAttempts - 1) false ++ [true] ∧
    (Lockout.recordN cfg t id cfg.maxAttempts).1 (Lockout.normalize id) =
      some ⟨cfg.maxAttempts, t, some (t + cfg.lockoutDuration)⟩ ∧
    Lockout.isLocked t (Lockout.recordN cfg t id cfg.maxAttempts).1 id = true ∧
    Lockout.getRemainingLockoutTime t (Lockout.recordN cfg t id cfg.maxAttempts).1 id =
      cfg.lockoutDuration ∧
    (∀ k, k < cfg.maxAttempts → (Lockout.recordN cfg t id k).2 = List.replicate k false) := by
  obtain ⟨n, hn⟩ : ∃ n, cfg.maxAttempts = n + 1 :=
    ⟨cfg.maxAttempts - 1, (Nat.succ_pred_eq_of_pos hmax).symm⟩
  have hnlt : n < cfg.maxAttempts := by omega
  obtain ⟨ih1, ih2⟩ := recordN_below cfg t id n hnlt
  have hle : cfg.maxAttempts ≤ n + 1 := Nat.le_of_eq hn
  have hstore : (Lockout.recordN cfg t id (n + 1)).1 (Lockout.normalize id) =
      some ⟨n + 1, t, some (t + cfg.lockoutDuration)⟩ := by
    by_cases hk : n = 0
    · subst hk
      simp [Lockout.recordN, Lockout.recordFailedAttempt, Lockout.emptyStore, ih1, hle]
    · simp [Lockout.recordN, Lockout.recordFailedAttempt, ih1, hk, hle]
  have hres : (Lockout.recordN cfg t id (n + 1)).2 = List.replicate n false ++ [true] := by
    by_cases hk : n = 0
    · subst hk
      simp [Lockout.recordN, Lockout.recordFailedAttempt, Lockout.emptyStore, ih1, ih2, hle]
    · simp [Lockout.recordN, Lockout.recordFailedAttempt, ih1, ih2, hk, hle]
  rw [hn]
  refine ⟨by simpa using hres, by simpa using hstore, ?_, ?_, ?_⟩
  · simp [Lockout.isLocked, hstore, hdur]
  · simp [Lockout.getRemainingLockoutTime, hstore]
  · intro k hk
    exact (recordN_below cfg t id k (by omega)).2

/-- C2 witness: with the default config (5 attempts, 15 minutes) and identifier
user@x.com, the five calls return false,false,false,false,true and the
account is then locked. -/
theorem c2_lockout_sequence_witness :
    (0 : Nat) < 5 ∧ (0 : Nat) < 900000 ∧
    (Lockout.recordN ⟨5, 900000⟩ 0 "user@x.com" 5).2 =
      List.replicate 4 false ++ [true] ∧
    Lockout.isLocked 0 (Lockout.recordN ⟨5, 900000⟩ 0 "user@x.com" 5).1 "user@x.com" = true :=
  ⟨by decide, by decide,
   by
     have h := (c2_lockout_sequence ⟨5, 900000⟩ 0 "user@x.com" (by decide) (by decide)).1
     simpa using h,
   (c2_lockout_sequence ⟨5, 900000⟩ 0 "user@x.com" (by decide) (by decide)).2.2.1⟩

/-- C9: every lockout operation treats identifiers as equal up to
lowercase-trim normalization — identifiers with the same normalized form
observe and mutate exactly the same record — and concretely, locking
Test@Example.com after 5 failures makes isLocked of test@example.com true. -/
theorem c9_lockout_normalization (cfg : Lockout.Config) (now : Nat)
    (store : Lockout.Store) (s s' : String)
    (h : Lockout.normalize s = Lockout.normalize s') :
    Lockout.recordFailedAttempt cfg now store s =
      Lockout.recordFailedAttempt cfg now store s' ∧
    Lockout.isLocked now store s = Lockout.isLocked now store s' ∧
    Lockout.getRemainingLockoutTime now store s =
      Lockout.getRemainingLockoutTime now store s' ∧
    Lockout.clearLockout store s = Lockout.clearLockout store s' ∧
    Lockout.getFailedAttempts store s = Lockout.getFailedAttempts store s' ∧
    Lockout.isLocked 0
      (Lockout.recordN ⟨5, 900000⟩ 0 "Test@Example.com" 5).1 "test@example.com" = true := by
  refine ⟨?_, ?_, ?_, ?_, ?_, by decide⟩
  · simp [Lockout.recordFailedAttempt, h]
  · simp [Lockout.isLocked, h]
  · simp [Lockout.getRemainingLockoutTime, h]
  · funext k
    simp [Lockout.clearLockout, h]
  · simp [Lockout.getFailedAttempts, h]

/-- C9 witness: Test@Example.com and a spaced uppercase variant normalize to
the same key, so the operations agree on them; and after 5 failures for
Test@Example.com, isLocked on test@example.com is true. -/
theorem c9_lockout_normalization_witness :
    Lockout.normalize "Test@Example.com" = Lockout.normalize "  TEST@EXAMPLE.COM " ∧
    Lockout.isLocked 3 Lockout.emptyStore "Test@Example.com" =
      Lockout.isLocked 3 Lockout.emptyStore "  TEST@EXAMPLE.COM " ∧
    Lockout.isLocked 0
      (Lockout.recordN ⟨5, 900000⟩ 0 "Test@Example.com" 5).1 "test@example.com" = true :=
  ⟨by decide,
   (c9_lockout_normalization ⟨5, 900000⟩ 3 Lockout.emptyStore
     "Test@Example.com" "  TEST@EXAMPLE.COM " (by decide)).2.1,
   (c9_lockout_normalization ⟨5, 900000⟩ 3 Lockout.emptyStore
     "Test@Example.com" "  TEST@EXAMPLE.COM " (by decide)).2.2.2.2.2⟩

/-- C3: with CSRF enabled, an unsafe-method request fails with "CSRF token
required" when the cookie token or the header token is missing, fails with
"Invalid CSRF token" when both are present but unequal, and is passed to the
next handler exactly when both are present and equal. -/
theorem c3_csrf_double_submit (cfg : Csrf.MwConfig) (freshToken : String) (req : Csrf.Request)
    (hen : cfg.enabled = true) (hmeth : Csrf.isSafeMethod req.method = false) :
    ((Csrf.getCookieToken cfg.cookieName req = none ∨
      Csrf.getHeaderToken cfg.headerName req = none) →
        Csrf.use cfg freshToken req = Csrf.Outcome.forbidden "CSRF token required") ∧
    (∀ c h, Csrf.getCookieToken cfg.cookieName req = some c →
        Csrf.getHeaderToken cfg.headerName req = some h → c ≠ h →
        Csrf.use cfg freshToken req = Csrf.Outcome.forbidden "Invalid CSRF token") ∧
    (Csrf.proceeds (Csrf.use cfg freshToken req) = true ↔
      ∃ tk, Csrf.getCookieToken cfg.cookieName req = some tk ∧
            Csrf.getHeaderToken cfg.headerName req = some tk) := by
  refine ⟨?_, ?_, ?_⟩
  · intro hmiss
    rcases hc : Csrf.getCookieToken cfg.cookieName req with _ | c <;>
      rcases hh : Csrf.getHeaderToken cfg.headerName req with _ | h <;>
      simp [Csrf.use, hen, hmeth, hc, hh] <;>
      simp [hc, hh] at hmiss
  · intro c h hc hh hne
    simp [Csrf.use, hen, hmeth, hc, hh, hne]
  · rcases hc : Csrf.getCookieToken cfg.cookieName req with _ | c <;>
      rcases hh : Csrf.getHeaderToken cfg.headerName req with _ | h
    · simp [Csrf.use, hen, hmeth, hc, hh, Csrf.proceeds]
    · simp [Csrf.use, hen, hmeth, hc, hh, Csrf.proceeds]
    · simp [Csrf.use, hen, hmeth, hc, hh, Csrf.proceeds]
    · by_cases hceq : c = h
      · subst hceq
        simp [Csrf.use, hen, hmeth, hc, hh, Csrf.proceeds]
      · simp [Csrf.use, hen, hmeth, hc, hh, hceq, Csrf.proceeds]
        exact fun he => hceq he.symm

/-- C3 witness: a POST with a valid cookie token is rejected with "CSRF token
required" when the header is absent, rejected with "Invalid CSRF token" on a
mismatched header, and proceeds on a matching header. -/
theorem c3_csrf_double_submit_witness :
    ((⟨true, "csrf-token", "x-csrf-token", 86400000, none, false, "strict"⟩ :
        Csrf.MwConfig).enabled = true) ∧
    Csrf.isSafeMethod "POST" = false ∧
    Csrf.use ⟨true, "csrf-token", "x-csrf-token", 86400000, none, false, "strict"⟩ "fresh"
      ⟨"POST", some [("csrf-token", "valid-csrf-token")], none, []⟩ =
      Csrf.Outcome.forbidden "CSRF token required" ∧
    Csrf.use ⟨true, "csrf-token", "x-csrf-token", 86400000, none, false, "strict"⟩ "fresh"
      ⟨"POST", some [("csrf-token", "valid-csrf-token")], none,
        [("x-csrf-token", Csrf.HeaderValue.single "wrong-token")]⟩ =
      Csrf.Outcome.forbidden "Invalid CSRF token" ∧
    Csrf.proceeds (Csrf.use
      ⟨true, "csrf-token", "x-csrf-token", 86400000, none, false, "strict"⟩ "fresh"
      ⟨"POST", some [("csrf-token", "valid-csrf-token")], none,
        [("x-csrf-token", Csrf.HeaderValue.single "valid-csrf-token")]⟩) = true :=
  ⟨rfl, rfl,
   (c3_csrf_double_submit _ "fresh" ⟨"POST", some [("csrf-token", "valid-csrf-token")], none, []⟩
     rfl rfl).1 (Or.inr (by decide)),
   (c3_csrf_double_submit _ "fresh" ⟨"POST", some [("csrf-token", "valid-csrf-token")], none,
       [("x-csrf-token", Csrf.HeaderValue.single "wrong-token")]⟩ rfl rfl).2.1
     "valid-csrf-token" "wrong-token" (by decide) (by decide) (by decide),
   (c3_csrf_double_submit _ "fresh" ⟨"POST", some [("csrf-token", "valid-csrf-token")], none,
       [("x-csrf-token", Csrf.HeaderValue.single "valid-csrf-token")]⟩ rfl rfl).2.2.mpr
     ⟨"valid-csrf-token", by decide, by decide⟩⟩

/-- C8: with CSRF enabled, every safe-method request proceeds and always
results in the CSRF cookie being set — the freshly generated token when no
cookie token is present, or the identical existing value re-set (never
rotated) when one is present. -/
theorem c8_csrf_safe (cfg : Csrf.MwConfig) (freshToken : String) (req : Csrf.Request)
    (hen : cfg.enabled = true) (hsafe : Csrf.isSafeMethod req.method = true) :
    Csrf.use cfg freshToken req =
      Csrf.Outcome.proceed (some (cfg.cookieName,
        (Csrf.getCookieToken cfg.cookieName req).getD freshToken,
        Csrf.mkCookieOptions cfg)) ∧
    (∀ v, Csrf.getCookieToken cfg.cookieName req = some v →
        Csrf.use cfg freshToken req =
          Csrf.Outcome.proceed (some (cfg.cookieName, v, Csrf.mkCookieOptions cfg))) ∧
    (Csrf.getCookieToken cfg.cookieName req = none →
        Csrf.use cfg freshToken req =
          Csrf.Outcome.proceed (some (cfg.cookieName, freshToken, Csrf.mkCookieOptions cfg))) := by
  refine ⟨by simp [Csrf.use, hen, hsafe], ?_, ?_⟩
  · intro v hv
    simp [Csrf.use, hen, hsafe, hv]
  · intro hv
    simp [Csrf.use, hen, hsafe, hv]

/-- C8 witness: a GET with no cookie sets the fresh token; a GET with an
existing token re-sets the identical value. -/
theorem c8_csrf_safe_witness :
    ((⟨true, "csrf-token", "x-csrf-token", 86400000, none, false, "strict"⟩ :
        Csrf.MwConfig).enabled = true) ∧
    Csrf.isSafeMethod "GET" = true ∧
    Csrf.use ⟨true, "csrf-token", "x-csrf-token", 86400000, none, false, "strict"⟩
      "fresh-uuid" ⟨"GET", some [], none, []⟩ =
      Csrf.Outcome.proceed (some ("csrf-token", "fresh-uuid",
        ⟨false, false, "strict", 86400000, "/", none⟩)) ∧
    Csrf.use ⟨true, "csrf-token", "x-csrf-token", 86400000, none, false, "strict"⟩
      "fresh-uuid" ⟨"GET", some [("csrf-token", "existing-token-123")], none, []⟩ =
      Csrf.Outcome.proceed (some ("csrf-token", "existing-token-123",
        ⟨false, false, "strict", 86400000, "/", none⟩)) :=
  ⟨rfl, rfl,
   (c8_csrf_safe _ "fresh-uuid" ⟨"GET", some [], none, []⟩ rfl rfl).2.2 (by decide),
   (c8_csrf_safe _ "fresh-uuid" ⟨"GET", some [("csrf-token", "existing-token-123")], none, []⟩
     rfl rfl).2.1 "existing-token-123" (by decide)⟩

/-- Helper: below the failure threshold, `k` failing calls from the initial
breaker leave it CLOSED with failureCount `k`. -/
theorem failN_below (cfg : CircuitBreaker.Config) (t : Nat) (e : String) :
    ∀ k, k < cfg.failureThreshold →
      CircuitBreaker.failN cfg t e k CircuitBreaker.initial =
        ⟨.closed, k, if k = 0 then none else some t, none, if k = 0 then none else some e⟩ := by
  intro k
  induction k with
  | zero =>
      intro _
      rfl
  | succ k ih =>
      intro h
      have ihh := ih (Nat.lt_of_succ_lt h)
      have hnle : ¬ cfg.failureThreshold ≤ k + 1 := Nat.not_le.mpr h
      by_cases hk : k = 0
      · subst hk
        simp [CircuitBreaker.failN, ihh, CircuitBreaker.executeStep, CircuitBreaker.initial, hnle]
      · simp [CircuitBreaker.failN, ihh, CircuitBreaker.executeStep, hk, hnle]

/-- C1: from CLOSED, failureThreshold consecutive failing execute calls drive
the breaker to OPEN with failureCount = failureThreshold; the next execute
call before the cooldown elapses returns the circuit-open error carrying the
service name without invoking the wrapped function and leaves the state
unchanged; and every successful execute call that actually invokes its
wrapped function resets failureCount to 0 and leaves the breaker CLOSED. -/
theorem c1_circuit_breaker (cfg : CircuitBreaker.Config) (t : Nat) (e : String)
    (hthr : 0 < cfg.failureThreshold) :
    (CircuitBreaker.failN cfg t e cfg.failureThreshold CircuitBreaker.initial =
      ⟨.opened, cfg.failureThreshold, some t, none, some e⟩) ∧
    (∀ (α : Type) (now : Nat) (fn : Except String α), now < t + cfg.halfOpenAfterMs →
       CircuitBreaker.executeStep cfg now
           (CircuitBreaker.failN cfg t e cfg.failureThreshold CircuitBreaker.initial) fn =
         (Except.error (CircuitBreaker.ExecError.circuitOpen cfg.serviceName (some e)),
          CircuitBreaker.failN cfg t e cfg.failureThreshold CircuitBreaker.initial,
          false, none)) ∧
    (∀ (α : Type) (now : Nat) (st : CircuitBreaker.BreakerState) (a : α),
       (CircuitBreaker.executeStep cfg now st (Except.ok a)).2.2.1 = true →
         (CircuitBreaker.executeStep cfg now st (Except.ok a)).1 = Except.ok a ∧
         (CircuitBreaker.executeStep cfg now st (Except.ok a)).2.1.failureCount = 0 ∧
         (CircuitBreaker.executeStep cfg now st (Except.ok a)).2.1.state = .closed) := by
  obtain ⟨n, hn⟩ : ∃ n, cfg.failureThreshold = n + 1 :=
    ⟨cfg.failureThreshold - 1, (Nat.succ_pred_eq_of_pos hthr).symm⟩
  have hopen : CircuitBreaker.failN cfg t e cfg.failureThreshold CircuitBreaker.initial =
      ⟨.opened, cfg.failureThreshold, some t, none, some e⟩ := by
    have ihh := failN_below cfg t e n (by omega)
    have hle : cfg.failureThreshold ≤ n + 1 := Nat.le_of_eq hn
    rw [hn]
    by_cases hk : n = 0
    · subst hk
      simp [CircuitBreaker.failN, ihh, CircuitBreaker.executeStep, CircuitBreaker.initial, hn]
    · simp [CircuitBreaker.failN, ihh, CircuitBreaker.executeStep, hk, hle, hn]
  refine ⟨hopen, ?_, ?_⟩
  · intro α now fn hcool
    rw [hopen]
    simp [CircuitBreaker.executeStep, hcool]
  · intro α now st a hinv
    by_cases hff : st.state = CircuitBreaker.CircuitState.opened ∧
        (match st.lastFailureAt with
         | some tf => now < tf + cfg.halfOpenAfterMs
         | none => false) = true
    · simp [CircuitBreaker.executeStep, hff] at hinv
    · simp [CircuitBreaker.executeStep, hff]

/-- C1 witness: with threshold 3 and cooldown 100 for TestService, three
failures at time 0 open the circuit; an execute at time 50 fast-fails with
the circuit-open error; a successful invoked call from a probing state resets
the count and closes the circuit. -/
theorem c1_circuit_breaker_witness :
    (0 : Nat) < 3 ∧
    CircuitBreaker.failN ⟨3, 100, "TestService"⟩ 0 "Failure" 3 CircuitBreaker.initial =
      ⟨.opened, 3, some 0, none, some "Failure"⟩ ∧
    CircuitBreaker.executeStep ⟨3, 100, "TestService"⟩ 50
        (CircuitBreaker.failN ⟨3, 100, "TestService"⟩ 0 "Failure" 3 CircuitBreaker.initial)
        (Except.ok (7 : Nat)) =
      (Except.error (CircuitBreaker.ExecError.circuitOpen "TestService" (some "Failure")),
       CircuitBreaker.failN ⟨3, 100, "TestService"⟩ 0 "Failure" 3 CircuitBreaker.initial,
       false, none) ∧
    (CircuitBreaker.executeStep ⟨3, 100, "TestService"⟩ 200
        (⟨.halfOpen, 2, some 0, none, some "Failure"⟩ : CircuitBreaker.BreakerState)
        (Except.ok (7 : Nat))).2.1.failureCount = 0 ∧
    (CircuitBreaker.executeStep ⟨3, 100, "TestService"⟩ 200
        (⟨.halfOpen, 2, some 0, none, some "Failure"⟩ : CircuitBreaker.BreakerState)
        (Except.ok (7 : Nat))).2.1.state = .closed :=
  ⟨by decide,
   (c1_circuit_breaker ⟨3, 100, "TestService"⟩ 0 "Failure" (by decide)).1,
   (c1_circuit_breaker ⟨3, 100, "TestService"⟩ 0 "Failure" (by decide)).2.1
     Nat 50 (Except.ok 7) (by decide),
   ((c1_circuit_breaker ⟨3, 100, "TestService"⟩ 0 "Failure" (by decide)).2.2
     Nat 200 ⟨.halfOpen, 2, some 0, none, some "Failure"⟩ 7 (by decide)).2.1,
   ((c1_circuit_breaker ⟨3, 100, "TestService"⟩ 0 "Failure" (by decide)).2.2
     Nat 200 ⟨.halfOpen, 2, some 0, none, some "Failure"⟩ 7 (by decide)).2.2⟩

/-- Helper: whenever the wrapped function is actually invoked, execute's
result is the wrapped function's own outcome (its error wrapped verbatim). -/
theorem executeStep_result_of_invoked {α : Type} (cfg : CircuitBreaker.Config) (now : Nat)
    (st : CircuitBreaker.BreakerState) (fn : Except String α)
    (hinv : (CircuitBreaker.executeStep cfg now st fn).2.2.1 = true) :
    (CircuitBreaker.executeStep cfg now st fn).1 =
      Except.mapError CircuitBreaker.ExecError.downstream fn := by
  by_cases hff : st.state = CircuitBreaker.CircuitState.opened ∧
      (match st.lastFailureAt with
       | some tf => now < tf + cfg.halfOpenAfterMs
       | none => false) = true
  · simp [CircuitBreaker.executeStep, hff] at hinv
  · cases fn <;> simp [CircuitBreaker.executeStep, hff, Except.mapError]

/-- C7: the outcome of execute is independent of the registered listeners —
including throwing ones: the result, the new breaker state and the invocation
flag equal those of the bare bookkeeping step, and when the wrapped function
is invoked the result is its own result or its own error propagated. -/
theorem c7_listener_isolation {α : Type} (cfg : CircuitBreaker.Config) (now : Nat)
    (st : CircuitBreaker.BreakerState) (fn : Except String α)
    (ls : List CircuitBreaker.Listener) :
    (CircuitBreaker.executeWithListeners cfg now st fn ls).1 =
      (CircuitBreaker.executeStep cfg now st fn).1 ∧
    (CircuitBreaker.executeWithListeners cfg now st fn ls).2.1 =
      (CircuitBreaker.executeStep cfg now st fn).2.1 ∧
    (CircuitBreaker.executeWithListeners cfg now st fn ls).2.2.1 =
      (CircuitBreaker.executeStep cfg now st fn).2.2.1 ∧
    ((CircuitBreaker.executeStep cfg now st fn).2.2.1 = true →
      (CircuitBreaker.executeWithListeners cfg now st fn ls).1 =
        Except.mapError CircuitBreaker.ExecError.downstream fn) := by
  rcases hstep : CircuitBreaker.executeStep cfg now st fn with ⟨r, st', inv, ev⟩
  refine ⟨by simp [CircuitBreaker.executeWithListeners, hstep],
          by simp [CircuitBreaker.executeWithListeners, hstep],
          by simp [CircuitBreaker.executeWithListeners, hstep], ?_⟩
  intro hinv
  have hres := executeStep_result_of_invoked cfg now st fn (by rw [hstep]; exact hinv)
  rw [hstep] at hres
  simpa [CircuitBreaker.executeWithListeners, hstep] using hres

/-- C7 witness: with a single listener that always throws, a successful
execute still returns the wrapped function's own result and produces the same
breaker state as the bare step. -/
theorem c7_listener_isolation_witness :
    ((CircuitBreaker.executeStep ⟨3, 100, "TestService"⟩ 0 CircuitBreaker.initial
        (Except.ok (42 : Nat))).2.2.1 = true) ∧
    (CircuitBreaker.executeWithListeners ⟨3, 100, "TestService"⟩ 0 CircuitBreaker.initial
        (Except.ok (42 : Nat))
        [fun _ => Except.error "Listener error"]).1 = Except.ok 42 ∧
    (CircuitBreaker.executeWithListeners ⟨3, 100, "TestService"⟩ 0 CircuitBreaker.initial
        (Except.ok (42 : Nat))
        [fun _ => Except.error "Listener error"]).2.1 =
      (CircuitBreaker.executeStep ⟨3, 100, "TestService"⟩ 0 CircuitBreaker.initial
        (Except.ok (42 : Nat))).2.1 :=
  ⟨by decide,
   (c7_listener_isolation ⟨3, 100, "TestService"⟩ 0 CircuitBreaker.initial
     (Except.ok 42) [fun _ => Except.error "Listener error"]).2.2.2 (by decide),
   (c7_listener_isolation ⟨3, 100, "TestService"⟩ 0 CircuitBreaker.initial
     (Except.ok 42) [fun _ => Except.error "Listener error"]).2.1⟩

/-- C10: the csrf config's enabled flag is false exactly when CSRF_ENABLED is
the exact string "false"; unset, "0", "FALSE", "no" and every other value
leave CSRF protection enabled. -/
theorem c10_csrf_enabled_flag :
    (∀ e : Option String, CsrfConfig.enabledOf e = false ↔ e = some "false") ∧
    (∀ e c h d, (CsrfConfig.mkConfig e c h d).enabled = CsrfConfig.enabledOf e) ∧
    CsrfConfig.enabledOf none = true ∧
    CsrfConfig.enabledOf (some "0") = true ∧
    CsrfConfig.enabledOf (some "FALSE") = true ∧
    CsrfConfig.enabledOf (some "no") = true ∧
    CsrfConfig.enabledOf (some "false") = false := by
  refine ⟨?_, fun e c h d => rfl, by decide, by decide, by decide, by decide, by decide⟩
  intro e
  simp [CsrfConfig.enabledOf]

/-- C10 witness: the disabled-iff-exactly-"false" equivalence applied to the
value "FALSE", which therefore keeps protection enabled. -/
theorem c10_csrf_enabled_flag_witness :
    CsrfConfig.enabledOf (some "FALSE") = false ↔ some "FALSE" = some "false" :=
  c10_csrf_enabled_flag.1 (some "FALSE")

/-- Helper: base64 alphabet characters are untouched by JSON string escaping. -/
theorem jsonEscapeChar_b64Char (n : Nat) :
    HmacSigner.jsonEscapeChar (Hmac.b64Char n) = String.singleton (Hmac.b64Char n) := by
  by_cases hn : n < 64
  · have h : ∀ m, m < 64 →
        HmacSigner.jsonEscapeChar (Hmac.b64Char m) = String.singleton (Hmac.b64Char m) := by
      decide
    exact h n hn
  · have hlen :
        ("ABCDEFGHIJKLMNOPQRSTUVWXYZabcdefghijklmnopqrstuvwxyz0123456789+/".toList).length
          ≤ n := by
      have h64 :
          ("ABCDEFGHIJKLMNOPQRSTUVWXYZabcdefghijklmnopqrstuvwxyz0123456789+/".toList).length
            = 64 := by decide
      omega
    unfold Hmac.b64Char
    rw [List.getD_eq_default _ _ hlen]
    decide

/-- Helper: the base64 padding character is untouched by JSON escaping. -/
theorem jsonEscapeChar_pad :
    HmacSigner.jsonEscapeChar '=' = String.singleton '=' := by decide

/-- Helper: the character data of a JSON-escaped string. -/
theorem jsonEscape_data (s : String) :
    (HmacSigner.jsonEscape s).data =
      s.data.flatMap (fun c => (HmacSigner.jsonEscapeChar c).toList) := rfl

/-- Helper: JSON escaping distributes over string append. -/
theorem jsonEscape_append (a b : String) :
    HmacSigner.jsonEscape (a ++ b) =
      HmacSigner.jsonEscape a ++ HmacSigner.jsonEscape b := by
  apply String.ext
  simp [jsonEscape_data, String.data_append]

/-- Helper: JSON escaping is the identity on strings of escape-free characters. -/
theorem jsonEscape_mk_of_safe (cs : List Char)
    (h : ∀ c ∈ cs, HmacSigner.jsonEscapeChar c = String.singleton c) :
    HmacSigner.jsonEscape (String.mk cs) = String.mk cs := by
  apply String.ext
  rw [jsonEscape_data]
  show (cs.flatMap fun c => (HmacSigner.jsonEscapeChar c).toList) = cs
  induction cs with
  | nil => rfl
  | cons c cs ih =>
      rw [List.flatMap_cons, h c (List.mem_cons_self c cs),
        ih (fun x hx => h x (List.mem_cons_of_mem c hx))]
      rfl

/-- Helper: a base64-encoded value is JSON-safe — escaping leaves it intact. -/
theorem jsonEscape_base64Encode : ∀ bs : List Nat,
    HmacSigner.jsonEscape (Hmac.base64Encode bs) = Hmac.base64Encode bs := by
  intro bs
  induction bs using Hmac.base64Encode.induct with
  | case1 a b c rest ih =>
      have hdef : Hmac.base64Encode (a :: b :: c :: rest) =
          String.mk [Hmac.b64Char (a >>> 2), Hmac.b64Char ((a % 4) <<< 4 ||| (b >>> 4)),
            Hmac.b64Char ((b % 16) <<< 2 ||| (c >>> 6)), Hmac.b64Char (c % 64)] ++
          Hmac.base64Encode rest := rfl
      rw [hdef, jsonEscape_append, ih,
        jsonEscape_mk_of_safe _ (by
          intro x hx
          simp at hx
          rcases hx with rfl | rfl | rfl | rfl <;> exact jsonEscapeChar_b64Char _)]
  | case2 a b =>
      have hdef : Hmac.base64Encode [a, b] =
          String.mk [Hmac.b64Char (a >>> 2), Hmac.b64Char ((a % 4) <<< 4 ||| (b >>> 4)),
            Hmac.b64Char ((b % 16) <<< 2), '='] := rfl
      rw [hdef, jsonEscape_mk_of_safe _ (by
        intro x hx
        simp at hx
        rcases hx with rfl | rfl | rfl | rfl <;>
          first
            | exact jsonEscapeChar_b64Char _
            | exact jsonEscapeChar_pad)]
  | case3 a =>
      have hdef : Hmac.base64Encode [a] =
          String.mk [Hmac.b64Char (a >>> 2), Hmac.b64Char ((a % 4) <<< 4), '=', '='] := rfl
      rw [hdef, jsonEscape_mk_of_safe _ (by
        intro x hx
        simp at hx
        rcases hx with rfl | rfl | rfl | rfl <;>
          first
            | exact jsonEscapeChar_b64Char _
            | exact jsonEscapeChar_pad)]
  | case4 => rfl

/-- Helper: merging the literal prefix of the rendered header. -/
theorem merge_head (X : String) :
    "HMAC " ++ ("\x7b\"username\":" ++ ("\"" ++ X)) = "HMAC \x7b\"username\":\"" ++ X := by
  simp only [← String.append_assoc]
  congr 1

/-- Helper: merging the literal middle segment of the rendered header. -/
theorem merge_mid (X : String) :
    "\"" ++ (",\"algorithm\":" ++ ("\"" ++ ("hmac-sha256" ++ ("\"" ++ (",\"headers\":" ++
      ("\"" ++ ("@request-target,content-type" ++
        ("\"" ++ (",\"signature\":" ++ ("\"" ++ X)))))))))) =
    "\",\"algorithm\":\"hmac-sha256\",\"headers\":\"@request-target,content-type\",\"signature\":\"" ++ X := by
  simp only [← String.append_assoc]
  congr 1

/-- Helper: merging the literal tail of the rendered header. -/
theorem merge_tail : ("\"" : String) ++ "\x7d" = "\"\x7d" := by decide

/-- C4: with a secret configured, sign renders exactly the HMAC-prefixed JSON
credentials — username is the configured client id, algorithm hmac-sha256,
headers `@request-target,content-type`, and signature the base64 HMAC-SHA256
under the secret of the canonical string
`<lowercased method> <path>` newline `content-type: <contentType>` — with
contentType defaulting to application/json, and signing reported enabled. -/
theorem c4_hmac_sign (st : HmacSigner.SignerState) (method path contentType : String)
    (hsec : st.secret ≠ "") :
    HmacSigner.sign st method path contentType =
      "HMAC \x7b\"username\":\"" ++ HmacSigner.jsonEscape st.clientId ++
      "\",\"algorithm\":\"hmac-sha256\",\"headers\":\"@request-target,content-type\",\"signature\":\"" ++
      Hmac.base64Encode (Hmac.hmacSha256 (Hmac.utf8 st.secret)
        (Hmac.utf8 (HmacSigner.toLowerAscii method ++ " " ++ path ++ "\ncontent-type: " ++ contentType))) ++
      "\"\x7d" ∧
    HmacSigner.signDefault st method path = HmacSigner.sign st method path "application/json" ∧
    HmacSigner.isEnabled st = true := by
  refine ⟨?_, rfl, by simp [HmacSigner.isEnabled, hsec]⟩
  have halg : HmacSigner.jsonEscape "hmac-sha256" = "hmac-sha256" := by decide
  have hhdr : HmacSigner.jsonEscape "@request-target,content-type" =
      "@request-target,content-type" := by decide
  simp only [HmacSigner.sign, HmacSigner.stringifyCredentials, HmacSigner.jsonStr,
    hsec, if_false]
  rw [halg, hhdr, jsonEscape_base64Encode]
  simp only [String.append_assoc]
  rw [merge_head, merge_mid, merge_tail]

/-- C4 witness: the rendering law applied to a concrete configured signer
(secret test-secret, default client id api-gateway) signing POST /graphql. -/
theorem c4_hmac_sign_witness :
    (HmacSigner.mkSigner (some "test-secret") none).secret ≠ "" ∧
    HmacSigner.sign (HmacSigner.mkSigner (some "test-secret") none) "POST" "/graphql"
        "application/json" =
      "HMAC \x7b\"username\":\"" ++
        HmacSigner.jsonEscape (HmacSigner.mkSigner (some "test-secret") none).clientId ++
      "\",\"algorithm\":\"hmac-sha256\",\"headers\":\"@request-target,content-type\",\"signature\":\"" ++
      Hmac.base64Encode (Hmac.hmacSha256
        (Hmac.utf8 (HmacSigner.mkSigner (some "test-secret") none).secret)
        (Hmac.utf8 (HmacSigner.toLowerAscii "POST" ++ " " ++ "/graphql" ++ "\ncontent-type: " ++
          "application/json"))) ++
      "\"\x7d" :=
  ⟨by decide,
   (c4_hmac_sign (HmacSigner.mkSigner (some "test-secret") none) "POST" "/graphql"
     "application/json" (by decide)).1⟩

/-- Grounding check: the SHA-256 embedding matches the standard digest of the
empty message. -/
theorem sha256_empty_vector :
    Hmac.hexEncode (Hmac.sha256 []) =
      "e3b0c44298fc1c149afbf4c8996fb92427ae41e4649b934ca495991b7852b855" := by decide

/-- Grounding check: the SHA-256 embedding matches the standard digest of
"abc". -/
theorem sha256_abc_vector :
    Hmac.hexEncode (Hmac.sha256 (Hmac.utf8 "abc")) =
      "ba7816bf8f01cfea414140de5dae2223b00361a396177a9cb410ff61f20015ad" := by decide

/-- Grounding check: the HMAC-SHA256 embedding matches RFC 4231 test case 2. -/
theorem hmac_rfc4231_case2 :
    Hmac.hexEncode (Hmac.hmacSha256 (Hmac.utf8 "Jefe")
        (Hmac.utf8 "what do ya want for nothing?")) =
      "5bdcc146bf60754e6a042426089575c75a003f089d2739839dec58b964ec3843" := by decide

/-- Grounding check: end-to-end rendering of a concrete signed request. -/
theorem sign_concrete_eval :
    HmacSigner.sign (HmacSigner.mkSigner (some "test-secret") none) "POST" "/graphql"
        "application/json" =
      "HMAC \x7b\"username\":\"api-gateway\",\"algorithm\":\"hmac-sha256\",\"headers\":\"@request-target,content-type\",\"signature\":\"jBMePICDPwh367euIcJEUfPqwXHzWFGlo+8mZnxXW6s=\"\x7d" := by
  decide
